import Mathlib

/-!
Shallow embedding of the trading-bot automation core of btc-dca-intel
(src/server/trading-bot.ts, src/server/errorHandler.ts, and the in-memory
storage layer), with theorems settling the specification claims.

Modelling conventions:
* JavaScript numbers are modelled as exact rationals (ℚ); `Date` values and
  `Date.now()` as integer epoch milliseconds (ℤ).
* `Map<string, V>` is modelled as an association list in insertion order,
  with `set` overwriting in place (as a JS `Map` does) and inserting fresh
  keys at the end.
* `randomUUID()` is modelled by a counter threaded through the storage
  state: ids are opaque and fresh, which is all the code relies on.
* `.toFixed(n)` decimal-string serialization of stored amounts is elided:
  values are kept exact. No claim depends on the rounding.
* `Math.random()` is passed in as an explicit parameter `r`.
-/

namespace BtcDcaIntel

/-- Structure `TradingSignal` from src/server/trading-bot.ts lines 4-13. -/
structure TradingSignal where
  id : String
  type : String
  indicator : String
  action : String
  strength : ℚ
  symbol : String
  timestamp : String
  confidence : ℚ
  deriving DecidableEq, Repr

/-- The `conditions` record of `AutomationRule` (trading-bot.ts lines 22-26). -/
structure RuleConditions where
  indicators : List String
  minConfidence : ℚ
  actions : List String
  deriving DecidableEq, Repr

/-- Structure `AutomationRule` from src/server/trading-bot.ts lines 15-27. -/
structure AutomationRule where
  id : String
  userId : String
  strategyId : String
  signalThreshold : ℚ
  maxAdjustment : ℚ
  isActive : Bool
  conditions : RuleConditions
  deriving DecidableEq, Repr

/-- Structure `DCAStrategy` as consumed by the bot (`strategy.amount` is a decimal
string in the schema, parsed with `parseFloat` at trading-bot.ts line 176;
we model the parsed value). -/
structure DCAStrategy where
  id : String
  userId : String
  amount : ℚ
  isActive : Bool
  deriving DecidableEq, Repr

/-- Structure `DCATransaction` as stored by `MemStorage.createDCATransaction`
(src/unnamed/part_013 lines 119-128); `executedAt` is epoch milliseconds. -/
structure DCATransaction where
  id : String
  strategyId : String
  amount : ℚ
  btcPrice : ℚ
  btcAmount : ℚ
  executedAt : ℤ
  deriving DecidableEq, Repr

/-- Structure `MarketData`: the rows held by `MemStorage` (src/unnamed/part_013). -/
structure MarketData where
  id : String
  symbol : String
  price : ℚ
  timestamp : ℤ
  deriving DecidableEq, Repr

/-- The `MemStorage` state (src/unnamed/part_013 lines 40-53), restricted to
the maps the bot touches. Lists are in `Map` insertion order; `nextId`
models `randomUUID()` freshness. -/
structure Storage where
  dcaStrategies : List DCAStrategy
  dcaTransactions : List DCATransaction
  marketData : List MarketData
  nextId : Nat
  deriving DecidableEq, Repr

/-- Embeds `MemStorage.getDCAStrategy` (src/unnamed/part_013 lines 89-91). -/
def getDCAStrategy (st : Storage) (id : String) : Option DCAStrategy :=
  st.dcaStrategies.find? (fun s => s.id == id)

/-- Embeds `MemStorage.getDCATransactions` (src/unnamed/part_013 lines 113-117):
filters the map's values by strategy id, in insertion order — no sorting. -/
def getDCATransactions (st : Storage) (strategyId : String) : List DCATransaction :=
  st.dcaTransactions.filter (fun t => t.strategyId == strategyId)

/-- Embeds `MemStorage.createDCATransaction` (src/unnamed/part_013 lines 119-128):
assigns a fresh id, stamps `executedAt := now`, appends to the map. -/
def createDCATransaction (st : Storage) (strategyId : String)
    (amount btcPrice btcAmount : ℚ) (now : ℤ) : DCATransaction × Storage :=
  let tx : DCATransaction :=
    { id := toString st.nextId, strategyId := strategyId, amount := amount,
      btcPrice := btcPrice, btcAmount := btcAmount, executedAt := now }
  (tx, { st with dcaTransactions := st.dcaTransactions ++ [tx],
                 nextId := st.nextId + 1 })

/-- Embeds `MemStorage.getLatestMarketData` (src/unnamed/part_013 lines 147-153):
filter by symbol, sort by timestamp descending, take the first. -/
def getLatestMarketData (st : Storage) (symbol : String) : Option MarketData :=
  ((st.marketData.filter (fun d => d.symbol == symbol)).mergeSort
    (fun a b => b.timestamp ≤ a.timestamp)).head?

/-- The 15-minute cooldown, `minInterval` at trading-bot.ts line 155
(milliseconds). -/
def minInterval : ℤ := 15 * 60 * 1000

/-- Mean confidence of a signal list, as computed at trading-bot.ts
line 164 (`reduce` sum divided by length). -/
def avgConfidence (signals : List TradingSignal) : ℚ :=
  (signals.map (·.confidence)).sum / signals.length

/-- Mean strength of a signal list, trading-bot.ts line 130. -/
def avgSignalStrength (signals : List TradingSignal) : ℚ :=
  (signals.map (·.strength)).sum / signals.length

/-- Embeds `TradingBotService.shouldExecuteTransaction` (trading-bot.ts
lines 144-166). `recentTransactions[0]` is the head of the storage's
insertion-ordered filtered list. -/
def shouldExecuteTransaction (st : Storage) (rule : AutomationRule)
    (signals : List TradingSignal) (adjustment : ℚ) (now : ℤ) : Bool :=
  let recentTransactions := getDCATransactions st rule.strategyId
  match recentTransactions.head? with
  | some lastTransaction =>
      if now - lastTransaction.executedAt < minInterval then
        false
      else
        decide (avgConfidence signals ≥ 0.7) && decide (adjustment ≥ 0.5)
  | none =>
      decide (avgConfidence signals ≥ 0.7) && decide (adjustment ≥ 0.5)

/-- The adjusted purchase amount, trading-bot.ts line 177:
`baseAmount * (1 + (adjustment - 0.5))`. -/
def adjustedAmount (baseAmount adjustment : ℚ) : ℚ :=
  baseAmount * (1 + (adjustment - 0.5))

/-- The mock price at trading-bot.ts line 180:
`45000 + (Math.random() - 0.5) * 10000`, with `Math.random()` as `r`. -/
def mockPrice (r : ℚ) : ℚ :=
  45000 + (r - 0.5) * 10000

/-- Embeds `TradingBotService.executeDCATransaction` (trading-bot.ts lines
168-208): computes the adjusted amount, fabricates a mock price, and
appends a transaction via `storage.createDCATransaction`. The triggering
signal argument is used only for logging and is omitted. -/
def executeDCATransaction (st : Storage) (strategy : DCAStrategy)
    (adjustment : ℚ) (r : ℚ) (now : ℤ) : Storage :=
  let baseAmount := strategy.amount
  let adjAmount := adjustedAmount baseAmount adjustment
  let currentPrice := mockPrice r
  let btcAmount := adjAmount / currentPrice
  (createDCATransaction st strategy.id adjAmount currentPrice btcAmount now).2

/-- The filter of `TradingBotService.processRuleAgainstSignals`
(trading-bot.ts lines 109-114). -/
def relevantSignals (rule : AutomationRule) (signals : List TradingSignal) :
    List TradingSignal :=
  signals.filter (fun signal =>
    rule.conditions.indicators.contains signal.indicator &&
    rule.conditions.actions.contains signal.action &&
    decide (signal.confidence ≥ rule.conditions.minConfidence) &&
    decide (signal.strength ≥ rule.signalThreshold))

/-- Embeds `TradingBotService.processRuleAgainstSignals` (trading-bot.ts lines
106-142), as a transformer of the storage state. -/
def processRuleAgainstSignals (st : Storage) (rule : AutomationRule)
    (signals : List TradingSignal) (now : ℤ) (r : ℚ) : Storage :=
  let relevant := relevantSignals rule signals
  if relevant.isEmpty then st
  else
    match getDCAStrategy st rule.strategyId with
    | none => st
    | some strategy =>
      if !strategy.isActive then st
      else
        let adjustment := min rule.maxAdjustment (avgSignalStrength relevant)
        if shouldExecuteTransaction st rule relevant adjustment now then
          executeDCATransaction st strategy adjustment r now
        else st

/-- Embeds `TradingBotService.processSignals` (trading-bot.ts lines 70-87): for
each rule in registry order, skip if inactive, else evaluate. -/
def processSignals (st : Storage) (rules : List AutomationRule)
    (signals : List TradingSignal) (now : ℤ) (r : ℚ) : Storage :=
  rules.foldl
    (fun acc rule =>
      if !rule.isActive then acc
      else processRuleAgainstSignals acc rule signals now r)
    st

/-- The rules registry: a JS `Map<string, AutomationRule>` as an
association list in insertion order. -/
abbrev Rules := List (String × AutomationRule)

/-- Embeds JS `Map.set`: overwrite in place when the key exists, else append. -/
def mapSet (m : Rules) (k : String) (v : AutomationRule) : Rules :=
  if m.any (fun p => p.1 == k) then
    m.map (fun p => if p.1 == k then (k, v) else p)
  else
    m ++ [(k, v)]

/-- Embeds JS `Map.get`: look up by key. -/
def mapGet (m : Rules) (k : String) : Option AutomationRule :=
  (m.find? (fun p => p.1 == k)).map (·.2)

/-- Embeds `TradingBotService.addAutomationRule` (trading-bot.ts lines 231-234):
stores the rule by id — no validation of any field. -/
def addAutomationRule (rules : Rules) (rule : AutomationRule) : Rules :=
  mapSet rules rule.id rule

/-- Embeds `TradingBotService.removeAutomationRule` (trading-bot.ts lines
236-239). -/
def removeAutomationRule (rules : Rules) (ruleId : String) : Rules :=
  rules.filter (fun p => !(p.1 == ruleId))

/-- The mutable fields of `TradingBotService` (trading-bot.ts lines
30-32). `intervalId` holds the armed timer's handle, if any. -/
structure BotState where
  rules : Rules
  isRunning : Bool
  intervalId : Option Nat
  deriving DecidableEq

/-- Embeds `TradingBotService.start` (trading-bot.ts lines 38-54): no-op when
already running; otherwise sets the flag, arms a timer (`tid` models the
fresh `setInterval` handle) and runs one immediate processing pass. The
returned `Bool` records whether that initial pass ran. -/
def start (s : BotState) (tid : Nat) : BotState × Bool :=
  if s.isRunning then
    (s, false)
  else
    ({ s with isRunning := true, intervalId := some tid }, true)

/-- Embeds `TradingBotService.stop` (trading-bot.ts lines 56-68): no-op when not
running; otherwise clears the flag and cancels the timer. -/
def stop (s : BotState) : BotState :=
  if !s.isRunning then
    s
  else
    { s with isRunning := false, intervalId := none }

/-- The record returned by `getStatus`. -/
structure BotStatus where
  isRunning : Bool
  activeRules : Nat
  uptime : Option ℤ
  deriving DecidableEq

/-- Embeds `TradingBotService.getStatus` (trading-bot.ts lines 246-252): returns
the running flag, `this.rules.size`, and `Date.now()` when running. A pure
read of the state — it returns no updated `BotState`. -/
def getStatus (s : BotState) (now : ℤ) : BotStatus :=
  { isRunning := s.isRunning,
    activeRules := s.rules.length,
    uptime := if s.isRunning then some now else none }

/-- The `conditions` object of a POST /api/bot/rules request body. `none`
models an absent (undefined/null, i.e. falsy) field; a present JS value
`0` for `minConfidence` is `some 0` (falsy as a number, handled in the
handler), and a present empty array is `some []` (truthy). -/
structure ReqConditions where
  indicators : Option (List String)
  minConfidence : Option ℚ
  actions : Option (List String)
  deriving DecidableEq, Repr

/-- A POST /api/bot/rules request body (errorHandler.ts line 1159). `none`
models a missing/falsy field. Non-numeric strings for the numeric fields
(which `parseFloat` turns into NaN and the handler rejects) are not
representable here; only numeric payloads are modelled. -/
structure RuleRequest where
  strategyId : Option String
  signalThreshold : Option ℚ
  maxAdjustment : Option ℚ
  conditions : Option ReqConditions
  deriving DecidableEq, Repr

/-- Outcome of the POST /api/bot/rules handler. -/
inductive PostRuleOutcome where
  | badRequest (error : String)
  | notFound (error : String)
  | ok (rule : AutomationRule)
  deriving DecidableEq, Repr

/-- Whether an outcome is an HTTP 400 rejection. -/
def PostRuleOutcome.isBadRequest : PostRuleOutcome → Bool
  | .badRequest _ => true
  | _ => false

/-- The POST /api/bot/rules handler (errorHandler.ts lines 1156-1215):
required-field check, range checks on `signalThreshold` ([0,1]) and
`maxAdjustment` ([0,2]), strategy existence, then rule construction with
`||`-defaults on the conditions, and registration. `newId` models the
generated `rule_<timestamp>_<random>` id. Returns the HTTP outcome and the
updated registry. -/
def postBotRules (st : Storage) (rules : Rules) (userId : String)
    (req : RuleRequest) (newId : String) : PostRuleOutcome × Rules :=
  match req.strategyId, req.signalThreshold, req.maxAdjustment, req.conditions with
  | some strategyId, some signalThreshold, some maxAdjustment, some conditions =>
    if signalThreshold < 0 || 1 < signalThreshold then
      (.badRequest "signalThreshold must be a number between 0 and 1", rules)
    else if maxAdjustment < 0 || 2 < maxAdjustment then
      (.badRequest "maxAdjustment must be a number between 0 and 2", rules)
    else
      match getDCAStrategy st strategyId with
      | none => (.notFound "Strategy not found", rules)
      | some _ =>
        let rule : AutomationRule :=
          { id := newId,
            userId := userId,
            strategyId := strategyId,
            signalThreshold := signalThreshold,
            maxAdjustment := maxAdjustment,
            isActive := true,
            conditions :=
              { indicators := (conditions.indicators).getD ["RSI", "MACD"],
                minConfidence :=
                  match conditions.minConfidence with
                  | none => 0.7
                  | some v => if v = 0 then 0.7 else v,
                actions := (conditions.actions).getD ["buy", "strong_buy"] } }
        (.ok rule, addAutomationRule rules rule)
  | _, _, _, _ =>
    (.badRequest
      "Missing required fields: strategyId, signalThreshold, maxAdjustment, conditions",
      rules)

/-! Concrete fixtures, used by witnesses and counterexamples. The rule,
signal and strategy follow the example scenario of the spec. -/

/-- Example rule: the default rule shape from `loadAutomationRules`. -/
def exampleRule : AutomationRule :=
  { id := "default-btc-rule", userId := "default-user", strategyId := "s1",
    signalThreshold := 0.6, maxAdjustment := 0.5, isActive := true,
    conditions := { indicators := ["RSI"], minConfidence := 0.7,
                    actions := ["buy", "strong_buy"] } }

/-- Example signal: the simulated RSI buy signal from `fetchCurrentSignals`. -/
def exampleSignal : TradingSignal :=
  { id := "signal_0", type := "bullish", indicator := "RSI", action := "buy",
    strength := 0.75, symbol := "BTC", timestamp := "t0", confidence := 0.85 }

/-- Example strategy with a $500 base amount. -/
def exampleStrategy : DCAStrategy :=
  { id := "s1", userId := "default-user", amount := 500, isActive := true }

/-- Storage holding the example strategy, no transactions, no market data. -/
def emptyStorage : Storage :=
  { dcaStrategies := [exampleStrategy], dcaTransactions := [],
    marketData := [], nextId := 0 }

/-- An old transaction for strategy s1, executed at epoch 0. -/
def cooldownTxOld : DCATransaction :=
  { id := "t1", strategyId := "s1", amount := 500, btcPrice := 45000,
    btcAmount := 1, executedAt := 0 }

/-- A recent transaction for strategy s1, executed at epoch 1000000 ms. -/
def cooldownTxNew : DCATransaction :=
  { id := "t2", strategyId := "s1", amount := 500, btcPrice := 45000,
    btcAmount := 1, executedAt := 1000000 }

/-- Storage whose transaction map holds the old then the new transaction,
in insertion (creation) order, as `MemStorage` produces. -/
def cooldownStorage : Storage :=
  { dcaStrategies := [exampleStrategy],
    dcaTransactions := [cooldownTxOld, cooldownTxNew],
    marketData := [], nextId := 2 }

/-- A rule whose numeric fields are all outside their documented ranges. -/
def outOfRangeRule : AutomationRule :=
  { id := "bad-rule", userId := "u", strategyId := "s1",
    signalThreshold := 5, maxAdjustment := 3, isActive := true,
    conditions := { indicators := [], minConfidence := 7, actions := [] } }

/-- A registered but inactive rule. -/
def inactiveRule : AutomationRule :=
  { exampleRule with id := "inactive-rule", isActive := false }

/-- Bot state holding exactly one rule, which is inactive. -/
def inactiveBotState : BotState :=
  { rules := [("inactive-rule", inactiveRule)], isRunning := false,
    intervalId := none }

/-- Running bot state holding the (active) example rule. -/
def activeBotState : BotState :=
  { rules := [("default-btc-rule", exampleRule)], isRunning := true,
    intervalId := some 0 }

/-- A well-formed add-rule request whose `conditions.minConfidence` is the
falsy number 0 and whose `indicators`/`actions` are absent. -/
def zeroConfRequest : RuleRequest :=
  { strategyId := some "s1", signalThreshold := some 0.6,
    maxAdjustment := some 0.5,
    conditions := some { indicators := none, minConfidence := some 0,
                         actions := none } }

/-- The rule the handler builds and stores for `zeroConfRequest`: its
confidence floor has been coerced to the default 0.7 and the absent
indicator/action lists to their defaults. -/
def zeroConfStoredRule : AutomationRule :=
  { id := "rid", userId := "u", strategyId := "s1",
    signalThreshold := 0.6, maxAdjustment := 0.5, isActive := true,
    conditions := { indicators := ["RSI", "MACD"], minConfidence := 0.7,
                    actions := ["buy", "strong_buy"] } }

/-- An add-rule request whose `signalThreshold` (5) and `maxAdjustment`
(3) are outside their documented ranges. -/
def outOfRangeRequest : RuleRequest :=
  { strategyId := some "s1", signalThreshold := some 5,
    maxAdjustment := some 3,
    conditions := some { indicators := none, minConfidence := some 0.7,
                         actions := none } }

/-! Theorems. -/

/-- C3: a signal is in a rule's filtered (relevant) set iff its indicator
is in `rule.conditions.indicators`, its action is in
`rule.conditions.actions`, its confidence is at least
`rule.conditions.minConfidence`, and its strength is at least
`rule.signalThreshold`; failing any one predicate excludes it. -/
theorem relevantSignals_mem_iff (rule : AutomationRule)
    (signal : TradingSignal) (signals : List TradingSignal) :
    signal ∈ relevantSignals rule signals ↔
      signal ∈ signals ∧
      signal.indicator ∈ rule.conditions.indicators ∧
      signal.action ∈ rule.conditions.actions ∧
      rule.conditions.minConfidence ≤ signal.confidence ∧
      rule.signalThreshold ≤ signal.strength := by
  unfold relevantSignals
  simp [List.mem_filter, List.elem_iff, and_assoc, ge_iff_le]

/-- C4: purchase execution computes
`adjustedAmount = baseAmount * (1 + (adjustment - 0.5))`; for any positive
base amount, adjustment 0.5 reproduces the base amount exactly, larger
adjustments scale up, smaller scale down. -/
theorem adjustedAmount_midpoint (baseAmount adjustment : ℚ)
    (h : 0 < baseAmount) :
    adjustedAmount baseAmount 0.5 = baseAmount ∧
    (0.5 < adjustment → baseAmount < adjustedAmount baseAmount adjustment) ∧
    (adjustment < 0.5 → adjustedAmount baseAmount adjustment < baseAmount) := by
  unfold adjustedAmount
  refine ⟨by ring, fun hgt => ?_, fun hlt => ?_⟩
  · nlinarith
  · nlinarith

/-- Witness for C4 at `baseAmount = 500`, `adjustment = 0.75`. -/
theorem adjustedAmount_midpoint_concrete :
    (0 : ℚ) < 500 ∧
    (adjustedAmount 500 0.5 = 500 ∧
     ((0.5 : ℚ) < 0.75 → (500 : ℚ) < adjustedAmount 500 0.75) ∧
     ((0.75 : ℚ) < 0.5 → adjustedAmount 500 0.75 < 500)) :=
  ⟨by norm_num, adjustedAmount_midpoint 500 0.75 (by norm_num)⟩

/-- C2: with no cooldown-blocking prior transaction (the transaction the
gate inspects, if any, is at least `minInterval` old), the gate accepts
iff the mean confidence of the signals is at least 0.7 and the adjustment
is at least 0.5; in particular mean confidence below 0.7 always rejects. -/
theorem shouldExecute_floors (st : Storage) (rule : AutomationRule)
    (signals : List TradingSignal) (adjustment : ℚ) (now : ℤ)
    (_hne : signals ≠ [])
    (hcool : ∀ t, (getDCATransactions st rule.strategyId).head? = some t →
      minInterval ≤ now - t.executedAt) :
    (shouldExecuteTransaction st rule signals adjustment now = true ↔
      (0.7 ≤ avgConfidence signals ∧ 0.5 ≤ adjustment)) ∧
    (avgConfidence signals < 0.7 →
      shouldExecuteTransaction st rule signals adjustment now = false) := by
  have key : shouldExecuteTransaction st rule signals adjustment now = true ↔
      (0.7 ≤ avgConfidence signals ∧ 0.5 ≤ adjustment) := by
    simp only [shouldExecuteTransaction]
    cases h : (getDCATransactions st rule.strategyId).head? with
    | none => simp [ge_iff_le]
    | some t =>
      have hnl : ¬ (now - t.executedAt < minInterval) := not_lt.mpr (hcool t h)
      simp [hnl, ge_iff_le]
  refine ⟨key, fun hlt => ?_⟩
  rcases hb : shouldExecuteTransaction st rule signals adjustment now with _ | _
  · rfl
  · exact absurd (key.mp hb).1 (not_le.mpr hlt)

/-- Witness for C2: the example signal set against the example rule on the
empty-ledger storage, with adjustment 0.5 and mean confidence 0.85. -/
theorem shouldExecute_floors_concrete :
    ([exampleSignal] ≠ ([] : List TradingSignal)) ∧
    ((shouldExecuteTransaction emptyStorage exampleRule [exampleSignal] 0.5 0 = true ↔
        (0.7 ≤ avgConfidence [exampleSignal] ∧ (0.5 : ℚ) ≤ 0.5)) ∧
      (avgConfidence [exampleSignal] < 0.7 →
        shouldExecuteTransaction emptyStorage exampleRule [exampleSignal] 0.5 0 = false)) :=
  ⟨by decide,
   shouldExecute_floors emptyStorage exampleRule [exampleSignal] 0.5 0
     (by decide) (by intro t ht; simp [getDCATransactions, emptyStorage] at ht)⟩

/-- C1: the claim fails on the code. The gate's `recentTransactions[0]` is
the head of `MemStorage.getDCATransactions`, which filters the transaction
map in insertion order without sorting — the *earliest* matching
transaction, not the one with the latest `executedAt`. Here the strategy's
latest transaction (`cooldownTxNew`, executed at 1000000 ms) is only
60000 ms old at evaluation time — well inside the 15-minute cooldown —
yet the gate accepts, because it measured the cooldown against the
17.7-minute-old `cooldownTxOld`. -/
theorem shouldExecute_cooldown_ignores_latest :
    shouldExecuteTransaction cooldownStorage exampleRule [exampleSignal]
      0.6 1060000 = true ∧
    cooldownTxNew ∈ getDCATransactions cooldownStorage exampleRule.strategyId ∧
    (∀ t ∈ getDCATransactions cooldownStorage exampleRule.strategyId,
      t.executedAt ≤ cooldownTxNew.executedAt) ∧
    (1060000 : ℤ) - cooldownTxNew.executedAt < minInterval := by
  refine ⟨?_, ?_, ?_, ?_⟩
  · norm_num [shouldExecuteTransaction, getDCATransactions, cooldownStorage,
      cooldownTxOld, cooldownTxNew, exampleRule, minInterval, avgConfidence,
      exampleSignal]
  · norm_num [getDCATransactions, cooldownStorage, cooldownTxOld,
      cooldownTxNew, exampleRule]
  · norm_num [getDCATransactions, cooldownStorage, cooldownTxOld,
      cooldownTxNew, exampleRule]
  · norm_num [cooldownTxNew, minInterval]

/-- Helper: overwriting a key in the registry map and reading it back
returns the stored value. -/
theorem mapGet_mapSet (m : Rules) (k : String) (v : AutomationRule) :
    mapGet (mapSet m k v) k = some v := by
  unfold mapGet mapSet
  by_cases h : m.any (fun p => p.1 == k)
  · rw [if_pos h]
    induction m with
    | nil => simp at h
    | cons p m ih =>
      by_cases hp : p.1 == k
      · simp [List.find?, hp]
      · have hp' : (p.1 == k) = false := by
          simpa using hp
        simp only [List.any_cons, hp', Bool.false_or] at h
        simp only [List.map_cons, if_neg hp]
        rw [List.find?_cons_of_neg _ (by simpa using hp)]
        exact ih h
  · rw [if_neg h]
    rw [List.find?_append]
    have hnone : m.find? (fun p => p.1 == k) = none := by
      rw [List.find?_eq_none]
      intro p hp
      by_contra hc
      exact h (List.any_eq_true.mpr ⟨p, hp, by simpa using hc⟩)
    simp [hnone, List.find?]

/-- C5 counterexample: `addAutomationRule` performs no validation — a rule
with `signalThreshold = 5` (outside [0,1]), `maxAdjustment = 3` (outside
[0,2]) and `minConfidence = 7` is stored
unchanged and read back intact. -/
theorem addAutomationRule_stores_out_of_range :
    mapGet (addAutomationRule [] outOfRangeRule) "bad-rule" =
      some outOfRangeRule ∧
    ¬ (outOfRangeRule.signalThreshold ≤ 1) ∧
    ¬ (outOfRangeRule.maxAdjustment ≤ 2) := by
  refine ⟨by rfl, by decide, by decide⟩

/-- C5 (amended): the registry's `addAutomationRule` does not validate and
stores any rule unchanged by id; range validation exists only in the
POST /api/bot/rules handler, which synchronously rejects a
`signalThreshold` outside [0,1] or a `maxAdjustment` outside [0,2] with a
descriptive 400 error, leaving the registry untouched. -/
theorem registry_add_validation (rules : Rules) (rule : AutomationRule)
    (st : Storage) (userId newId : String) (req : RuleRequest) (v w : ℚ) :
    (mapGet (addAutomationRule rules rule) rule.id = some rule) ∧
    (req.signalThreshold = some v → (v < 0 ∨ 1 < v) →
      (postBotRules st rules userId req newId).1.isBadRequest = true ∧
      (postBotRules st rules userId req newId).2 = rules) ∧
    (req.maxAdjustment = some w → (w < 0 ∨ 2 < w) →
      (postBotRules st rules userId req newId).1.isBadRequest = true ∧
      (postBotRules st rules userId req newId).2 = rules) := by
  refine ⟨mapGet_mapSet rules rule.id rule, ?_, ?_⟩
  · rintro hv hrange
    obtain ⟨sid, sth, mad, cond⟩ := req
    simp only at hv
    subst hv
    cases sid <;> cases mad <;> cases cond <;>
      simp [postBotRules, PostRuleOutcome.isBadRequest] <;>
      rcases hrange with h1 | h1 <;> simp [h1, not_le.mpr h1, le_of_lt h1]
  · rintro hw hrange
    obtain ⟨sid, sth, mad, cond⟩ := req
    simp only at hw
    subst hw
    cases sid <;> cases sth <;> cases cond <;>
      simp [postBotRules, PostRuleOutcome.isBadRequest]
    case some.some.some a b c =>
      by_cases hb : b < 0 ∨ 1 < b
      · rcases hb with h1 | h1 <;> simp [h1]
      · push_neg at hb
        rcases hrange with h1 | h1 <;>
          simp [not_lt.mpr hb.1, not_lt.mpr hb.2, h1]

/-- Witness for C5 (amended): the concrete out-of-range request with
`signalThreshold = 5` and `maxAdjustment = 3` is rejected with a 400 and
the empty registry stays empty, and adding `outOfRangeRule` to the empty
registry stores it verbatim. -/
theorem registry_add_validation_concrete :
    (mapGet (addAutomationRule [] outOfRangeRule) outOfRangeRule.id =
      some outOfRangeRule) ∧
    (postBotRules emptyStorage [] "u" outOfRangeRequest
      "rid").1.isBadRequest = true ∧
    (postBotRules emptyStorage [] "u" outOfRangeRequest "rid").2 = [] :=
  have h := registry_add_validation [] outOfRangeRule emptyStorage "u" "rid"
    outOfRangeRequest 5 3
  ⟨h.1, (h.2.1 rfl (Or.inr (by decide))).1, (h.2.1 rfl (Or.inr (by decide))).2⟩

/-- C6 counterexample: with the market-data store empty (the collaborator
has no BTC price at all, i.e. the price is unavailable), purchase
execution still appends a transaction, and its stored price is the
fabricated mock value 45000 (at `Math.random() = 0.5`). -/
theorem executeDCATransaction_fabricated_price :
    getLatestMarketData emptyStorage "BTC" = none ∧
    (executeDCATransaction emptyStorage exampleStrategy 0.5 0.5
      0).dcaTransactions.length = 1 ∧
    (executeDCATransaction emptyStorage exampleStrategy 0.5 0.5
      0).dcaTransactions.map (·.btcPrice) = [45000] := by
  refine ⟨?_, rfl, ?_⟩
  · simp [getLatestMarketData, emptyStorage]
  · norm_num [executeDCATransaction, createDCATransaction, mockPrice,
      emptyStorage]

/-- C6 (amended): purchase execution never consults the market-data
collaborator: whatever the storage's `marketData` holds (including
nothing for the symbol), it appends exactly one transaction whose price
is the internal mock `45000 + (r - 0.5) * 10000`, leaving the market-data
store untouched. -/
theorem executeDCATransaction_appends_mock (st : Storage)
    (strategy : DCAStrategy) (adjustment r : ℚ) (now : ℤ) :
    (executeDCATransaction st strategy adjustment r now).dcaTransactions =
      st.dcaTransactions ++
        [{ id := toString st.nextId, strategyId := strategy.id,
           amount := adjustedAmount strategy.amount adjustment,
           btcPrice := mockPrice r,
           btcAmount := adjustedAmount strategy.amount adjustment / mockPrice r,
           executedAt := now }] ∧
    (executeDCATransaction st strategy adjustment r now).marketData =
      st.marketData :=
  ⟨rfl, rfl⟩

/-- C7 counterexample: a state holding exactly one rule, which is
inactive, reports `activeRules = 1` while the number of rules with
`isActive = true` is 0. -/
theorem getStatus_counts_inactive :
    (getStatus inactiveBotState 0).activeRules = 1 ∧
    (inactiveBotState.rules.filter (fun p => p.2.isActive)).length = 0 := by
  decide

/-- C7 (amended): `getStatus` is a pure read returning the engine's
running flag and the total number of registered rules (active or not) as
`activeRules`; only when every registered rule is active does that count
agree with the active-rule count. -/
theorem getStatus_fields (s : BotState) (now : ℤ) :
    (getStatus s now).isRunning = s.isRunning ∧
    (getStatus s now).activeRules = s.rules.length ∧
    ((∀ p ∈ s.rules, p.2.isActive = true) →
      (getStatus s now).activeRules =
        (s.rules.filter (fun p => p.2.isActive)).length) := by
  refine ⟨rfl, rfl, fun h => ?_⟩
  have hf : s.rules.filter (fun p => p.2.isActive) = s.rules :=
    List.filter_eq_self.mpr (fun a ha => h a ha)
  simp [getStatus, hf]

/-- Witness for C7 (amended) on a running state whose single rule is
active. -/
theorem getStatus_fields_concrete :
    (∀ p ∈ activeBotState.rules, p.2.isActive = true) ∧
    ((getStatus activeBotState 5).isRunning = activeBotState.isRunning ∧
     (getStatus activeBotState 5).activeRules = activeBotState.rules.length ∧
     (getStatus activeBotState 5).activeRules =
       (activeBotState.rules.filter (fun p => p.2.isActive)).length) :=
  ⟨by decide,
   (getStatus_fields activeBotState 5).1,
   (getStatus_fields activeBotState 5).2.1,
   (getStatus_fields activeBotState 5).2.2 (by decide)⟩

/-- C8: `start` on a running state returns the state unchanged with no
initial pass and no new timer; two consecutive `start` calls produce the
same state as one, the second arming nothing and running no pass; `stop`
is idempotent, and `stop` on a stopped state is the identity. -/
theorem start_stop_idempotent (s : BotState) (tid tid2 tid3 : Nat) :
    start { s with isRunning := true } tid3 =
      ({ s with isRunning := true }, false) ∧
    start (start s tid).1 tid2 = ((start s tid).1, false) ∧
    stop (stop s) = stop s ∧
    stop { s with isRunning := false } = { s with isRunning := false } := by
  refine ⟨rfl, ?_, ?_, rfl⟩
  · unfold start
    by_cases h : s.isRunning <;> simp [h]
  · unfold stop
    by_cases h : s.isRunning <;> simp [h]

/-- C9: a processing pass is unaffected by inactive rules — processing any
rule list equals processing only its active rules, and when every rule is
inactive the pass leaves storage untouched (no evaluation, no transaction
appended on any rule's behalf). -/
theorem processSignals_skips_inactive (st : Storage)
    (rules : List AutomationRule) (signals : List TradingSignal)
    (now : ℤ) (r : ℚ) :
    processSignals st rules signals now r =
      processSignals st (rules.filter (fun rule => rule.isActive))
        signals now r ∧
    ((∀ rule ∈ rules, rule.isActive = false) →
      processSignals st rules signals now r = st) := by
  have key : ∀ (l : List AutomationRule) (st : Storage),
      processSignals st l signals now r =
        processSignals st (l.filter (fun rule => rule.isActive))
          signals now r := by
    intro l
    induction l with
    | nil => intro st; rfl
    | cons rule rs ih =>
      intro st
      by_cases h : rule.isActive
      · simp only [processSignals, List.foldl_cons, List.filter_cons, h,
          if_true, Bool.not_true, Bool.false_eq_true, if_false]
        exact ih (processRuleAgainstSignals st rule signals now r)
      · simp only [processSignals, List.foldl_cons, List.filter_cons, h,
          Bool.false_eq_true, if_false, Bool.not_false, if_true]
        exact ih st
  refine ⟨key rules st, fun h => ?_⟩
  have hnil : rules.filter (fun rule => rule.isActive) = [] := by
    rw [List.filter_eq_nil_iff]
    intro a ha
    simp [h a ha]
  rw [key rules st, hnil]
  rfl

/-- Witness for C9: a pass over the single inactive rule leaves the
example storage exactly as it was. -/
theorem processSignals_skips_inactive_concrete :
    (∀ rule ∈ [inactiveRule], rule.isActive = false) ∧
    processSignals emptyStorage [inactiveRule] [exampleSignal] 0 0 =
      emptyStorage :=
  ⟨by decide,
   (processSignals_skips_inactive emptyStorage [inactiveRule]
     [exampleSignal] 0 0).2 (by decide)⟩

/-- C10: any POST /api/bot/rules request that reaches rule construction
(the handler returns ok) has its falsy `conditions.minConfidence`
(the number 0, or absent) silently replaced by the default 0.7 — a stored
rule can never carry a zero confidence floor — and absent
`conditions.indicators` / `conditions.actions` are replaced by their
defaults. -/
theorem postBotRules_default_coercion (st : Storage) (rules : Rules)
    (userId newId : String) (req : RuleRequest) (rule : AutomationRule)
    (c : ReqConditions)
    (hc : req.conditions = some c)
    (hok : (postBotRules st rules userId req newId).1 = .ok rule) :
    ((c.minConfidence = some 0 ∨ c.minConfidence = none) →
      rule.conditions.minConfidence = 0.7) ∧
    rule.conditions.minConfidence ≠ 0 ∧
    (c.indicators = none → rule.conditions.indicators = ["RSI", "MACD"]) ∧
    (c.actions = none → rule.conditions.actions = ["buy", "strong_buy"]) := by
  obtain ⟨sid, sth, mad, cond⟩ := req
  simp only at hc
  subst hc
  cases sid <;> cases sth <;> cases mad <;>
    simp only [postBotRules] at hok
  all_goals try exact PostRuleOutcome.noConfusion hok
  · split at hok
    · simp at hok
    · split at hok
      · simp at hok
      · split at hok
        · simp at hok
        · simp only [PostRuleOutcome.ok.injEq] at hok
          subst hok
          refine ⟨fun hmc => ?_, ?_, fun hi => by simp [hi], fun ha => by simp [ha]⟩
          · rcases hmc with hmc | hmc <;> simp [hmc]
          · cases hm : c.minConfidence with
            | none => simp [hm]; norm_num
            | some v =>
              by_cases hv : v = 0
              · simp [hm, hv]; norm_num
              · simp [hm, hv]

/-- Witness for C10: the request with `minConfidence = 0` and absent
indicators/actions is accepted, and the stored rule carries the coerced
floor 0.7 and the default lists. -/
theorem postBotRules_default_coercion_concrete :
    (postBotRules emptyStorage [] "u" zeroConfRequest "rid").1 =
      .ok zeroConfStoredRule ∧
    zeroConfStoredRule.conditions.minConfidence = 0.7 ∧
    zeroConfStoredRule.conditions.minConfidence ≠ 0 ∧
    zeroConfStoredRule.conditions.indicators = ["RSI", "MACD"] ∧
    zeroConfStoredRule.conditions.actions = ["buy", "strong_buy"] :=
  have hok : (postBotRules emptyStorage [] "u" zeroConfRequest "rid").1 =
      .ok zeroConfStoredRule := by
    norm_num [postBotRules, zeroConfRequest, emptyStorage, getDCAStrategy,
      exampleStrategy, zeroConfStoredRule]
  have h := postBotRules_default_coercion emptyStorage [] "u" "rid"
    zeroConfRequest zeroConfStoredRule
    { indicators := none, minConfidence := some 0, actions := none }
    rfl hok
  ⟨hok, h.1 (Or.inl rfl), h.2.1, h.2.2.1 rfl, h.2.2.2 rfl⟩

end BtcDcaIntel
